import Mathlib

/-!
Verification development for the spotify-mock-data-generator repository.

We shallowly embed the two source modules that carry the behaviour under
study:

* `src/spotify_client.py` — `SpotifyTopItems.get_top_items` and
  `SpotifyTopItems.get_all_top_items` (paginated fetcher);
* `src/spotify_auth.py` — `AuthCallbackHandler.do_GET`,
  `AuthCallbackServer.serve_forever`, `SpotifyAuth.save_tokens` and
  `get_valid_token` (credential lifecycle).

Network interaction is abstracted by an oracle `server : Nat → Nat → PageOutcome α`
giving, for each `(limit, offset)` request actually sent, the response of the
paged resource endpoint (a JSON body with `items`/`total`, an HTTP error
status, or a network-level failure).  `item_type` and `time_range` only select
which collection the oracle describes, so they are threaded through unchanged.

A key point of the embedding concerns the error handling of
`get_top_items` (spotify_client.py lines 49–65): every HTTP error and every
transport error is printed and then `sys.exit(1)` is called, i.e. a
`SystemExit` is raised.  `SystemExit` derives from `BaseException`, not
`Exception`; inside a `ThreadPoolExecutor` worker it is captured into the
future and re-raised by `future.result()`, where the collection loop's
`except Exception` clause (line 132) does NOT catch it.  The
`with ThreadPoolExecutor` block shuts down with `wait=True` and no
cancellation, so every submitted page request still executes before the
`SystemExit` propagates out of `get_all_top_items`.  The embedding models
this exactly: `FetchResult.exit` records the printed diagnostic category,
`AllTrace.requested` records every request issued during the call, and a
propagating `SystemExit` yields `AllOutcome.exited`.
-/

namespace SpotifyMock

/-- An item of the paged collection.  Claims never inspect item structure, so
the embedding is polymorphic; concrete instances use `Nat`. -/
abbrev Item := Nat

/-- Response of the paged resource endpoint for one request, as seen by
`requests.get` in `get_top_items`: a 2xx JSON body with `items` and `total`,
a non-2xx status (raised by `raise_for_status` as `HTTPError`), or a
network-level failure (`RequestException`). -/
inductive PageOutcome (α : Type) where
  | success (items : List α) (total : Nat)
  | httpError (status : Nat)
  | transportError
deriving DecidableEq, Repr

/-- The diagnostic category printed by `get_top_items` just before
`sys.exit(1)` (spotify_client.py lines 53–65).  The process exit status is 1
in every case; only the printed message distinguishes the causes. -/
inductive ErrMsg where
  | err401
  | err403
  | err429
  | errHttp (status : Nat)
  | errConnection
deriving DecidableEq, Repr

/-- Result of one call to `get_top_items`: either the parsed JSON page, or a
`SystemExit` raised by `sys.exit(1)` after printing the recorded category. -/
inductive FetchResult (α : Type) where
  | ok (items : List α) (total : Nat)
  | exit (msg : ErrMsg)
deriving DecidableEq, Repr

/-- `true` iff the call returned a page (did not raise `SystemExit`). -/
def FetchResult.succeeded : FetchResult α → Bool
  | .ok _ _ => true
  | .exit _ => false

/-- The query parameters `get_top_items` builds for the GET request
(spotify_client.py lines 43–47): `time_range`, `limit` clamped as
`min(limit, 50)`, and `offset` passed through. -/
structure TopParams where
  time_range : String
  limit : Nat
  offset : Nat
deriving DecidableEq, Repr

/-- Embeds the `params` dictionary of `get_top_items`. -/
def get_top_items_request (time_range : String) (limit offset : Nat) : TopParams :=
  ⟨time_range, min limit 50, offset⟩

/-- Embeds `SpotifyTopItems.get_top_items` (spotify_client.py lines 28–65).
The request is sent with `limit` clamped to `min(limit, 50)`; a 2xx response
is returned as parsed JSON; on `HTTPError` the status-specific message is
printed (401 / 403 / 429 / other) and `sys.exit(1)` raised; on
`RequestException` the connection-error message is printed and `sys.exit(1)`
raised. -/
def get_top_items (server : Nat → Nat → PageOutcome α) (time_range : String)
    (limit offset : Nat) : FetchResult α :=
  let p := get_top_items_request time_range limit offset
  match server p.limit p.offset with
  | .success items total => .ok items total
  | .httpError s =>
      if s = 401 then .exit .err401
      else if s = 403 then .exit .err403
      else if s = 429 then .exit .err429
      else .exit (.errHttp s)
  | .transportError => .exit .errConnection

/-- Python `range(start, stop, step)` for a positive step, as used at
spotify_client.py line 98 (`range(50, total, 50)`). -/
def pyRange (start stop step : Nat) : List Nat :=
  (List.range stop).filter (fun n => decide (start ≤ n) && decide ((n - start) % step = 0))

/-- Overall outcome of `get_all_top_items`: a normally returned item list, or
a `SystemExit` (with the printed category of its cause) propagating out of
the call and terminating the process. -/
inductive AllOutcome (α : Type) where
  | returned (items : List α)
  | exited (msg : ErrMsg)
deriving DecidableEq, Repr

/-- Trace of one `get_all_top_items` call: the `(limit, offset)` pairs of
every page request issued (in submission order), and the outcome. -/
structure AllTrace (α : Type) where
  requested : List (Nat × Nat)
  outcome : AllOutcome α
deriving DecidableEq, Repr

/-- The length of a `returned` outcome (`none` when the call exited). -/
def AllOutcome.returnedLength {α : Type} : AllOutcome α → Option Nat
  | .returned items => some items.length
  | .exited _ => none

/-- The working total of a fetch (spotify_client.py lines 89–90): the first
page's `total`, capped by `max_items` only when `max_items` is truthy
(`if max_items:` leaves both `None` and `0` uncapped). -/
def capTotal (max_items : Option Nat) (total0 : Nat) : Nat :=
  match max_items with
  | some m => if m = 0 then total0 else min total0 m
  | none => total0

/-- Sequential fetching loop of `get_all_top_items`
(spotify_client.py lines 100–107) followed by the final truncation at
line 136.  A `SystemExit` raised by `get_top_items` propagates at once, so
requests after the failing offset are never issued. -/
def seqFetch (server : Nat → Nat → PageOutcome α) (time_range : String) (total : Nat) :
    List Nat → List α → List (Nat × Nat) → AllTrace α
  | [], acc, reqs => ⟨reqs, .returned (acc.take total)⟩
  | o :: rest, acc, reqs =>
      match get_top_items server time_range (min 50 (total - o)) o with
      | .ok items _ => seqFetch server time_range total rest (acc ++ items)
          (reqs ++ [(min 50 (total - o), o)])
      | .exit m => ⟨reqs ++ [(min 50 (total - o), o)], .exited m⟩

/-- Collection loop over `as_completed` (spotify_client.py lines 126–134),
processing futures in completion order `order`.  A successful future's items
are appended to the accumulator; a future that raised `SystemExit` re-raises
it at `future.result()`, and `except Exception` does not catch it, so the
loop aborts with the exit propagating; when every future succeeded, the
accumulator is truncated at line 136. -/
def parCollect (server : Nat → Nat → PageOutcome α) (time_range : String) (total : Nat) :
    List Nat → List α → AllOutcome α
  | [], acc => .returned (acc.take total)
  | o :: rest, acc =>
      match get_top_items server time_range (min 50 (total - o)) o with
      | .ok items _ => parCollect server time_range total rest (acc ++ items)
      | .exit m => .exited m

/-- Embeds `SpotifyTopItems.get_all_top_items` (spotify_client.py
lines 66–137).

* The offset-0 request is sent first with limit 50; if it raises, the
  `SystemExit` propagates with no other request issued.
* `total` is read from the first page and capped by `max_items` only when
  `max_items` is truthy (`if max_items:` — `None` and `0` leave it uncapped).
* If `remaining = total - len(all_items) <= 0` the accumulated first-page
  items are returned at once — note: WITHOUT the `[:total]` truncation.
* Otherwise the remaining offsets `range(50, total, 50)` are fetched, each
  with limit `min(50, total - offset)`; sequentially when `parallel` is false
  or there are no offsets, else through a thread pool.  In the pool all page
  requests are submitted up front and none is ever cancelled (shutdown waits
  for queued work), so every one of them is issued even when some future
  raises; `order` is the completion order in which `as_completed` yields the
  futures. -/
def get_all_top_items (server : Nat → Nat → PageOutcome α) (time_range : String)
    (max_items : Option Nat) (parallel : Bool) (order : List Nat) : AllTrace α :=
  match get_top_items server time_range 50 0 with
  | .exit m => ⟨[(50, 0)], .exited m⟩
  | .ok firstItems total0 =>
      if capTotal max_items total0 ≤ firstItems.length then
        ⟨[(50, 0)], .returned firstItems⟩
      else if !parallel || (pyRange 50 (capTotal max_items total0) 50).isEmpty then
        seqFetch server time_range (capTotal max_items total0)
          (pyRange 50 (capTotal max_items total0) 50) firstItems [(50, 0)]
      else
        ⟨(50, 0) :: (pyRange 50 (capTotal max_items total0) 50).map
            (fun o => (min 50 (capTotal max_items total0 - o), o)),
          parCollect server time_range (capTotal max_items total0) order firstItems⟩

/-! ## Embedding of `src/spotify_auth.py` -/

/-- A token record as a JSON dictionary with the fields the code reads or
writes (`access_token`, `refresh_token`, `expires_in`, `expires_at`); `none`
models an absent key. -/
structure TokenRecord where
  access_token : Option String
  refresh_token : Option String
  expires_in : Option Nat
  expires_at : Option Nat
deriving DecidableEq, Repr

/-- The empty dictionary (as returned by `load_tokens` when no file exists). -/
def TokenRecord.empty : TokenRecord := ⟨none, none, none, none⟩

/-- Embeds `SpotifyAuth.save_tokens` (spotify_auth.py lines 88–95): sets
`tokens['expires_at'] = tokens.get('expires_in', 3600)` and writes the
resulting record to the token file; the returned record is what is
persisted. -/
def save_tokens (t : TokenRecord) : TokenRecord :=
  ⟨t.access_token, t.refresh_token, t.expires_in, some (t.expires_in.getD 3600)⟩

/-- Python truthiness of an optional string: `None` and `""` are falsy. -/
def strTruthy : Option String → Bool
  | none => false
  | some s => !(s == "")

/-- The query parameters of one callback GET request, after
`parse_qs(urlparse(self.path).query)`: the first value of `code` and of
`error` when the key is present (with `parse_qs` dropping blank values). -/
structure CallbackRequest where
  code : Option String
  error : Option String
deriving DecidableEq, Repr

/-- The mutable state of `AuthCallbackServer` seen by the handler: the
`should_stop` flag gating `serve_forever`, and the token record last written
by `save_tokens` (none if no write happened). -/
structure SrvState where
  should_stop : Bool
  savedTokens : Option TokenRecord
deriving DecidableEq, Repr

/-- Embeds `AuthCallbackHandler.do_GET` (spotify_auth.py lines 127–175).
`exchange` models `SpotifyAuth.get_tokens_from_code`, returning the parsed
token response or raising.  Returns the updated server state and the HTTP
status sent back to the browser:

* `code` present — exchange and save tokens, respond 200, set
  `should_stop`; if the exchange raises, the `except` branch responds
  `send_error(500, ...)` and does NOT touch `should_stop`;
* otherwise `error` present — respond `send_error(400, ...)`, set
  `should_stop`;
* neither — respond `send_error(400, "Invalid callback")`, leave the state
  unchanged. -/
def do_GET (exchange : String → Except String TokenRecord)
    (st : SrvState) (req : CallbackRequest) : SrvState × Nat :=
  match req.code with
  | some c =>
      match exchange c with
      | .ok tokens => (⟨true, some (save_tokens tokens)⟩, 200)
      | .error _ => (st, 500)
  | none =>
      match req.error with
      | some _ => (⟨true, st.savedTokens⟩, 400)
      | none => (st, 400)

/-- Embeds `AuthCallbackServer.serve_forever` (spotify_auth.py
lines 190–193): handle inbound requests one at a time while `should_stop`
is false.  Applied to a finite list of inbound requests; requests arriving
after `should_stop` is set are not handled. -/
def serve (exchange : String → Except String TokenRecord) :
    SrvState → List CallbackRequest → SrvState
  | st, [] => st
  | st, r :: rs =>
      if st.should_stop then st
      else serve exchange (do_GET exchange st r).1 rs

/-- The refresh token `get_valid_token` uses (spotify_auth.py line 217):
`refresh_token or tokens['refresh_token']` — the environment override when
truthy, else the stored record's value. -/
def pickRefreshTok (envRefresh : Option String) (stored : TokenRecord) : String :=
  if strTruthy envRefresh then envRefresh.getD "" else stored.refresh_token.getD ""

/-- `if 'refresh_token' not in new_tokens: new_tokens['refresh_token'] =
refresh_tok` (spotify_auth.py lines 221–222). -/
def carryForward (tok : String) (resp : TokenRecord) : TokenRecord :=
  if resp.refresh_token.isNone then
    ⟨resp.access_token, some tok, resp.expires_in, resp.expires_at⟩
  else resp

/-- How `get_valid_token` ends: returning an access token to the caller
without any interactive flow, or falling through to
`auth.start_auth_flow()`. -/
inductive TokenOutcome where
  | returnedAccess (tok : String)
  | interactive
deriving DecidableEq, Repr

/-- Result of the refresh phase of `get_valid_token`: the record persisted by
`save_tokens` during the refresh attempt (if the attempt got that far), and
how the function proceeds. -/
structure TokenFlowResult where
  persistedByRefresh : Option TokenRecord
  outcome : TokenOutcome
deriving DecidableEq, Repr

/-- Embeds `get_valid_token` (spotify_auth.py lines 196–236) up to the
decision between returning a refreshed token and starting the interactive
flow.  `envRefresh` is `os.getenv('SPOTIFY_REFRESH_TOKEN')`, `stored` the
record loaded by `load_tokens`, `doRefresh` models
`SpotifyAuth.refresh_access_token` (response JSON, or raising on any
failure).

If a truthy refresh token is available, a refresh is attempted inside
`try`: on any exception from the refresh call, fall through to the
interactive flow; on success, carry the old refresh token forward when the
response omits one, persist via `save_tokens` and return
`new_tokens['access_token']` — if that key is absent the `KeyError`
(raised after the record was already persisted) is caught by the same
`except`, falling through to the interactive flow. -/
def get_valid_token (envRefresh : Option String) (stored : TokenRecord)
    (doRefresh : String → Except String TokenRecord) : TokenFlowResult :=
  if strTruthy envRefresh || strTruthy stored.refresh_token then
    match doRefresh (pickRefreshTok envRefresh stored) with
    | .error _ => ⟨none, .interactive⟩
    | .ok resp =>
        let new_tokens := carryForward (pickRefreshTok envRefresh stored) resp
        match new_tokens.access_token with
        | some a => ⟨some (save_tokens new_tokens), .returnedAccess a⟩
        | none => ⟨some (save_tokens new_tokens), .interactive⟩
  else ⟨none, .interactive⟩

/-! ## Concrete oracles used in the theorems below -/

/-- A well-behaved collection of 237 items: every request for `l` items at
offset `o` succeeds with `l` items (each tagged with its page offset) and
`total = 237`. -/
def mkServer237 : Nat → Nat → PageOutcome Item :=
  fun l o => .success (List.replicate l o) 237

/-- Same collection, but the request at offset 50 fails at network level
(`requests.exceptions.RequestException`). -/
def transportAt50 : Nat → Nat → PageOutcome Item :=
  fun l o => if o = 50 then .transportError else .success (List.replicate l o) 237

/-- Same collection, but the request at offset 50 is answered with
HTTP 401. -/
def server401At50 : Nat → Nat → PageOutcome Item :=
  fun l o => if o = 50 then .httpError 401 else .success (List.replicate l o) 237

/-- A provider whose first page carries 50 items and `total = 100`. -/
def bigFirstPage : Nat → Nat → PageOutcome Item :=
  fun _ _ => .success (List.replicate 50 0) 100

/-- A collection of 37 items: a request for `l` items returns
`min l 37` items and `total = 37`. -/
def server37 : Nat → Nat → PageOutcome Item :=
  fun l _ => .success (List.replicate (min l 37) 0) 37

/-- An empty collection. -/
def server0 : Nat → Nat → PageOutcome Item :=
  fun _ _ => .success [] 0

/-- A provider that is unreachable: every request fails at network level. -/
def serverDown : Nat → Nat → PageOutcome Item :=
  fun _ _ => .transportError

/-- A token-exchange endpoint that rejects every authorization code
(models `get_tokens_from_code` raising). -/
def failingExchange : String → Except String TokenRecord :=
  fun _ => .error "invalid_grant"

/-- A token-exchange endpoint that accepts every code and answers with a
fresh access and refresh token. -/
def okExchange : String → Except String TokenRecord :=
  fun _ => .ok ⟨some "fresh-access", some "fresh-refresh", some 3600, none⟩

/-- A refresh endpoint that accepts any refresh token and answers with a new
access token but omits the `refresh_token` field. -/
def refreshOmitting : String → Except String TokenRecord :=
  fun _ => .ok ⟨some "new-access", none, some 3600, none⟩

/-- A refresh endpoint that rejects every refresh token. -/
def refreshRejecting : String → Except String TokenRecord :=
  fun _ => .error "invalid_grant"

/-! ## Helper lemmas -/

/-- `succeeded` characterisation. -/
lemma succeeded_eq_true_iff {α : Type} {r : FetchResult α} :
    r.succeeded = true ↔ ∃ its t, r = FetchResult.ok its t := by
  cases r <;> simp [FetchResult.succeeded]

/-- `save_tokens` does not change the `refresh_token` field. -/
lemma save_tokens_refresh_token (t : TokenRecord) :
    (save_tokens t).refresh_token = t.refresh_token := rfl

/-- `carryForward` does not change the `access_token` field. -/
lemma carryForward_access_token (tok : String) (resp : TokenRecord) :
    (carryForward tok resp).access_token = resp.access_token := by
  unfold carryForward; split <;> rfl

/-- When the response omits a refresh token, `carryForward` installs the
prior one. -/
lemma carryForward_refresh_token_of_none {resp : TokenRecord} (tok : String)
    (h : resp.refresh_token = none) :
    (carryForward tok resp).refresh_token = some tok := by
  simp [carryForward, h]

/-- Shape of `get_all_top_items` when the parallel branch is reached: a
successful first page whose declared total exceeds the items received, with
at least one further offset.  Every remaining page request is submitted to
the executor (and executed — the pool cancels nothing), and the outcome is
the collection loop over the completion order. -/
lemma get_all_parallel {α : Type} (server : Nat → Nat → PageOutcome α) (tr : String)
    (order : List Nat) (items : List α) (total0 : Nat)
    (h0 : server 50 0 = PageOutcome.success items total0)
    (hlen : items.length < total0)
    (hne : (pyRange 50 total0 50).isEmpty = false) :
    get_all_top_items server tr none true order =
      ⟨(50, 0) :: (pyRange 50 total0 50).map (fun o => (min 50 (total0 - o), o)),
        parCollect server tr total0 order items⟩ := by
  have hft : get_top_items server tr 50 0 = FetchResult.ok items total0 := by
    simp [get_top_items, get_top_items_request, h0]
  simp [get_all_top_items, hft, capTotal, Nat.not_le.mpr hlen, hne]

/-- The collection loop propagates the `SystemExit` of the first failing
future (in completion order) when every earlier future succeeded. -/
lemma parCollect_exit_after_ok {α : Type} (server : Nat → Nat → PageOutcome α)
    (tr : String) (total : Nat) (m : ErrMsg) :
    ∀ (pre : List Nat) (o : Nat) (rest : List Nat) (acc : List α),
      (∀ o' ∈ pre, (get_top_items server tr (min 50 (total - o')) o').succeeded = true) →
      get_top_items server tr (min 50 (total - o)) o = FetchResult.exit m →
      parCollect server tr total (pre ++ o :: rest) acc = AllOutcome.exited m
  | [], o, rest, acc, _, hx => by simp [parCollect, hx]
  | p :: pre, o, rest, acc, hpre, hx => by
      obtain ⟨its, t, hpok⟩ :=
        succeeded_eq_true_iff.mp (hpre p (List.mem_cons_self p pre))
      rw [List.cons_append, parCollect, hpok]
      exact parCollect_exit_after_ok server tr total m pre o rest (acc ++ its)
        (fun o' h => hpre o' (List.mem_cons_of_mem p h)) hx

/-- The collection loop over the well-behaved 237-item provider: every future
succeeds with its requested page, and the accumulator — first page plus the
pages in completion order — is truncated to the declared total. -/
lemma parCollect_mk (tr : String) :
    ∀ (ord : List Nat) (acc : List Item),
      parCollect mkServer237 tr 237 ord acc =
        AllOutcome.returned
          ((acc ++ ord.flatMap (fun o => List.replicate (min 50 (237 - o)) o)).take 237)
  | [], acc => by simp [parCollect]
  | o :: rest, acc => by
      have hmin : min (min 50 (237 - o)) 50 = min 50 (237 - o) := by omega
      have hok : get_top_items mkServer237 tr (min 50 (237 - o)) o
          = FetchResult.ok (List.replicate (min 50 (237 - o)) o) 237 := by
        simp [get_top_items, get_top_items_request, mkServer237, hmin]
      rw [parCollect, hok]
      show parCollect mkServer237 tr 237 rest (acc ++ List.replicate (min 50 (237 - o)) o) = _
      rw [parCollect_mk tr rest (acc ++ List.replicate (min 50 (237 - o)) o)]
      simp [List.append_assoc]

/-- When the total (after the `max_items` cap) does not exceed the items of
the first page, `get_all_top_items` returns those items at once — untruncated
(spotify_client.py lines 93–95) — after the single offset-0 request. -/
lemma get_all_early_return {α : Type} (server : Nat → Nat → PageOutcome α)
    (tr : String) (max_items : Option Nat) (parallel : Bool) (order : List Nat)
    (items : List α) (total0 : Nat)
    (h0 : server 50 0 = PageOutcome.success items total0)
    (htot : capTotal max_items total0 ≤ items.length) :
    get_all_top_items server tr max_items parallel order =
      ⟨[(50, 0)], AllOutcome.returned items⟩ := by
  have hft : get_top_items server tr 50 0 = FetchResult.ok items total0 := by
    simp [get_top_items, get_top_items_request, h0]
  simp [get_all_top_items, hft, htot]

/-- The cap never raises the total above the first page's declared total. -/
lemma capTotal_le (max_items : Option Nat) (total0 : Nat) :
    capTotal max_items total0 ≤ total0 := by
  cases max_items with
  | none => exact Nat.le_refl total0
  | some m =>
      by_cases hm : m = 0
      · simp [capTotal, hm]
      · simp [capTotal, hm, Nat.min_le_left]

/-! ## Claims -/

/-- C10: for every call to `get_top_items`, the `limit` query parameter sent
to the paged resource endpoint is `min(limit, 50)`: a caller-supplied limit
above 50 is silently clamped to 50, a limit of at most 50 (including 0 — no
lower bound of 1 is enforced) is passed through unchanged, and `offset` is
passed through as given. -/
theorem limit_clamped_to_fifty (tr : String) (limit offset : Nat) :
    (get_top_items_request tr limit offset).limit = min limit 50
    ∧ (50 < limit → (get_top_items_request tr limit offset).limit = 50)
    ∧ (limit ≤ 50 → (get_top_items_request tr limit offset).limit = limit)
    ∧ (get_top_items_request tr 0 offset).limit = 0
    ∧ (get_top_items_request tr limit offset).offset = offset := by
  refine ⟨rfl, fun h => ?_, fun h => ?_, rfl, rfl⟩
  · simp [get_top_items_request, Nat.min_eq_right (Nat.le_of_lt h)]
  · simp [get_top_items_request, Nat.min_eq_left h]

/-- Witness for C10: a limit of 120 is clamped to 50; a limit of 7 is sent
unchanged. -/
theorem limit_clamped_to_fifty_witness :
    (get_top_items_request "medium_term" 120 0).limit = 50
    ∧ (get_top_items_request "medium_term" 7 3).limit = 7 :=
  ⟨(limit_clamped_to_fifty "medium_term" 120 0).2.1 (by decide),
    (limit_clamped_to_fifty "medium_term" 7 3).2.2.1 (by decide)⟩

/-- C8: if the sequential offset-0 request fails — with any HTTP error or a
transport error, i.e. whenever `get_top_items` raises `SystemExit` —
`get_all_top_items` fails fatally (the exit propagates) and issues zero
other page requests: the request trace is exactly the single offset-0
request. -/
theorem first_page_failure_is_fatal {α : Type} (server : Nat → Nat → PageOutcome α)
    (tr : String) (max_items : Option Nat) (parallel : Bool) (order : List Nat)
    (m : ErrMsg) (h : get_top_items server tr 50 0 = FetchResult.exit m) :
    get_all_top_items server tr max_items parallel order =
      ⟨[(50, 0)], AllOutcome.exited m⟩ := by
  simp [get_all_top_items, h]

/-- Witness for C8: an unreachable provider makes the offset-0 request fail
with a transport error; the fetch exits with the connection diagnostic and
only the offset-0 request was issued. -/
theorem first_page_failure_is_fatal_witness :
    get_all_top_items serverDown "medium_term" none true [] =
      ⟨[(50, 0)], AllOutcome.exited ErrMsg.errConnection⟩ :=
  first_page_failure_is_fatal serverDown "medium_term" none true []
    ErrMsg.errConnection (by decide)

/-- C7: when the first page's declared total is at most the page size (50)
and the provider fills the first page accordingly, `get_all_top_items`
returns immediately after the single offset-0 request — the request trace is
exactly that one call — returning precisely the first page's items
(so `declared_total = 0` yields `[]`, and `declared_total = 37` yields the
37 items of the first call). -/
theorem small_total_single_request {α : Type} (server : Nat → Nat → PageOutcome α)
    (tr : String) (max_items : Option Nat) (parallel : Bool) (order : List Nat)
    (items : List α) (total0 : Nat)
    (h0 : server 50 0 = PageOutcome.success items total0)
    (hlen : items.length = total0) (hsmall : total0 ≤ 50) :
    get_all_top_items server tr max_items parallel order =
      ⟨[(50, 0)], AllOutcome.returned items⟩ :=
  get_all_early_return server tr max_items parallel order items total0 h0
    (hlen ▸ capTotal_le max_items total0)

/-- Witness for C7: a 37-item collection is fetched whole by the first call
alone, and an empty collection yields an empty list from the first call
alone. -/
theorem small_total_single_request_witness :
    get_all_top_items server37 "medium_term" none true [] =
      ⟨[(50, 0)], AllOutcome.returned (List.replicate 37 0)⟩
    ∧ get_all_top_items server0 "medium_term" none true [] =
      ⟨[(50, 0)], AllOutcome.returned []⟩ :=
  ⟨small_total_single_request server37 "medium_term" none true []
      (List.replicate 37 0) 37 (by decide) (by decide) (by decide),
    small_total_single_request server0 "medium_term" none true [] [] 0
      (by decide) (by decide) (by decide)⟩

/-- C1: contrary to the claim, a single transport failure on a non-zero
offset page does NOT leave `get_all_top_items` returning the other pages'
items: `get_top_items` turns the `RequestException` into `sys.exit(1)`, the
`SystemExit` is re-raised from the future and is not caught by the
`except Exception` clause, so the whole call exits.  Concretely, with
`declared_total = 237` and the offset-50 page failing at transport level
(completing last, after 187 items were already accumulated), every page
request is issued but the call ends in `SystemExit` carrying the
connection-error diagnostic instead of returning the 187 items. -/
theorem transport_failure_page_exits_process :
    get_all_top_items transportAt50 "medium_term" none true [100, 150, 200, 50] =
      ⟨[(50, 0), (50, 50), (50, 100), (50, 150), (37, 200)],
        AllOutcome.exited ErrMsg.errConnection⟩ := by
  decide

/-- C3: contrary to the claim, the early return of `get_all_top_items`
(spotify_client.py lines 93–95) skips the `[:total]` truncation performed on
the other return path (line 136): with `max_items = 30` and a first page
carrying 50 items (declared total 100, capped to 30), the call returns all
50 items — strictly more than the capped declared total of 30. -/
theorem early_return_skips_truncation :
    get_all_top_items bigFirstPage "medium_term" (some 30) true [] =
      ⟨[(50, 0)], AllOutcome.returned (List.replicate 50 0)⟩
    ∧ 30 < (List.replicate 50 (0 : Item)).length := by
  constructor
  · exact get_all_early_return bigFirstPage "medium_term" (some 30) true []
      (List.replicate 50 0) 100 (by decide) (by decide)
  · decide

/-- C2: contrary to the claim, when a request bears `code` but the
token-exchange step fails, the handler's `except` branch answers 500 and
does NOT set `should_stop`, so the listener keeps accepting requests (here
it handles a second identical request).  The other behaviours match the
claim: a successful exchange stops the listener, a request bearing `error`
stops it, and a request bearing neither leaves it waiting. -/
theorem exchange_failure_leaves_listener_waiting :
    do_GET failingExchange ⟨false, none⟩ ⟨some "abc", none⟩ = (⟨false, none⟩, 500)
    ∧ (serve failingExchange ⟨false, none⟩
        [⟨some "abc", none⟩, ⟨some "abc", none⟩]).should_stop = false
    ∧ (do_GET okExchange ⟨false, none⟩ ⟨some "abc", none⟩).1.should_stop = true
    ∧ (do_GET okExchange ⟨false, none⟩ ⟨none, some "access_denied"⟩).1.should_stop = true
    ∧ (do_GET okExchange ⟨false, none⟩ ⟨none, none⟩).1.should_stop = false := by
  decide

/-- C4 counterexample: with `declared_total = 237` and the offset-50 page
answered 401 — and completing first, so the 401 is detected before any other
future is collected — the remaining page requests at offsets 100, 150 and
200 are still issued (the pool cancels nothing and shutdown waits for queued
work), refuting "no further page requests are issued after the 401 is
detected". -/
theorem pages_requested_despite_401 :
    get_all_top_items server401At50 "medium_term" none true [50, 100, 150, 200] =
      ⟨[(50, 0), (50, 50), (50, 100), (50, 150), (37, 200)],
        AllOutcome.exited ErrMsg.err401⟩
    ∧ ((50 : Nat), (100 : Nat)) ∈
        (get_all_top_items server401At50 "medium_term" none true
          [50, 100, 150, 200]).requested := by
  decide

/-- C4 amended: a 401 on any page of a parallel fetch makes that worker
print the 401-specific diagnostic — distinct from the 403, 429,
connection-error and other-HTTP diagnostics — and raise `SystemExit`;
once the failed future is collected (after any earlier-completing successful
futures) the exit propagates out of `get_all_top_items`.  However, no
further-request suppression takes place: every remaining page request
computed from the declared total is still issued, whatever the server
answers. -/
theorem err401_fatal_but_pages_still_requested {α : Type}
    (server : Nat → Nat → PageOutcome α) (tr : String)
    (order pre rest : List Nat) (o : Nat) (items : List α) (total0 : Nat)
    (h0 : server 50 0 = PageOutcome.success items total0)
    (hlen : items.length < total0)
    (hne : (pyRange 50 total0 50).isEmpty = false)
    (horder : order = pre ++ o :: rest)
    (hpre : ∀ o' ∈ pre, (get_top_items server tr (min 50 (total0 - o')) o').succeeded = true)
    (h401 : get_top_items server tr (min 50 (total0 - o)) o = FetchResult.exit ErrMsg.err401) :
    (get_all_top_items server tr none true order).requested
        = (50, 0) :: (pyRange 50 total0 50).map (fun x => (min 50 (total0 - x), x))
    ∧ (get_all_top_items server tr none true order).outcome
        = AllOutcome.exited ErrMsg.err401
    ∧ (ErrMsg.err401 ≠ ErrMsg.err403 ∧ ErrMsg.err401 ≠ ErrMsg.err429
        ∧ ErrMsg.err401 ≠ ErrMsg.errConnection
        ∧ ∀ s, ErrMsg.err401 ≠ ErrMsg.errHttp s) := by
  rw [get_all_parallel server tr order items total0 h0 hlen hne]
  refine ⟨rfl, ?_, by decide, by decide, by decide, fun s => by simp⟩
  subst horder
  exact parCollect_exit_after_ok server tr total0 ErrMsg.err401 pre o rest items hpre h401

/-- Witness for the amended C4, at the counterexample's input: the 401 at
offset 50 completes first, the call exits with the 401 diagnostic, and the
full request trace was still issued. -/
theorem err401_fatal_but_pages_still_requested_witness :
    (get_all_top_items server401At50 "medium_term" none true
        [50, 100, 150, 200]).requested
      = [(50, 0), (50, 50), (50, 100), (50, 150), (37, 200)]
    ∧ (get_all_top_items server401At50 "medium_term" none true
        [50, 100, 150, 200]).outcome = AllOutcome.exited ErrMsg.err401 := by
  have h := err401_fatal_but_pages_still_requested server401At50 "medium_term"
    [50, 100, 150, 200] [] [100, 150, 200] 50 (List.replicate 50 0) 237
    (by decide) (by decide) (by decide) rfl
    (fun o' h' => absurd h' (List.not_mem_nil o')) (by decide)
  exact ⟨h.1.trans (by decide), h.2.1⟩

/-- C5: for every refresh performed with a prior refresh token (from storage
or the environment override), if the refresh response omits the
`refresh_token` field then the record persisted by `save_tokens` after the
refresh still carries the prior refresh token: a refresh token once held is
never lost by refreshing. -/
theorem refresh_preserves_prior_refresh_token (envRefresh : Option String)
    (stored : TokenRecord) (doRefresh : String → Except String TokenRecord)
    (resp : TokenRecord)
    (hguard : (strTruthy envRefresh || strTruthy stored.refresh_token) = true)
    (hok : doRefresh (pickRefreshTok envRefresh stored) = Except.ok resp)
    (homit : resp.refresh_token = none) :
    (get_valid_token envRefresh stored doRefresh).persistedByRefresh
        = some (save_tokens (carryForward (pickRefreshTok envRefresh stored) resp))
    ∧ (save_tokens (carryForward (pickRefreshTok envRefresh stored) resp)).refresh_token
        = some (pickRefreshTok envRefresh stored) := by
  constructor
  · cases hac : (carryForward (pickRefreshTok envRefresh stored) resp).access_token <;>
      simp [get_valid_token, hguard, hok, hac]
  · rw [save_tokens_refresh_token, carryForward_refresh_token_of_none _ homit]

/-- Witness for C5: refreshing with the environment token "rt" against a
provider that omits the refresh token persists a record whose refresh token
is still "rt". -/
theorem refresh_preserves_prior_refresh_token_witness :
    (get_valid_token (some "rt") TokenRecord.empty refreshOmitting).persistedByRefresh
        = some (save_tokens (carryForward (pickRefreshTok (some "rt") TokenRecord.empty)
            ⟨some "new-access", none, some 3600, none⟩))
    ∧ (save_tokens (carryForward (pickRefreshTok (some "rt") TokenRecord.empty)
        ⟨some "new-access", none, some 3600, none⟩)).refresh_token
        = some (pickRefreshTok (some "rt") TokenRecord.empty) :=
  refresh_preserves_prior_refresh_token (some "rt") TokenRecord.empty refreshOmitting
    ⟨some "new-access", none, some 3600, none⟩ (by decide) rfl rfl

/-- C9: with a refresh token available (from storage or the environment
override) `get_valid_token` attempts the refresh first: on success it
persists the merged record and returns the new access token with no
interactive flow, and on refresh failure of any kind it falls back to the
interactive authorization flow instead of propagating the error. -/
theorem refresh_first_and_fallback (envRefresh : Option String) (stored : TokenRecord)
    (doRefresh : String → Except String TokenRecord)
    (hguard : (strTruthy envRefresh || strTruthy stored.refresh_token) = true) :
    (∀ resp a, doRefresh (pickRefreshTok envRefresh stored) = Except.ok resp →
        resp.access_token = some a →
        get_valid_token envRefresh stored doRefresh =
          ⟨some (save_tokens (carryForward (pickRefreshTok envRefresh stored) resp)),
            TokenOutcome.returnedAccess a⟩)
    ∧ (∀ e, doRefresh (pickRefreshTok envRefresh stored) = Except.error e →
        get_valid_token envRefresh stored doRefresh = ⟨none, TokenOutcome.interactive⟩) := by
  constructor
  · intro resp a hok hacc
    have hca : (carryForward (pickRefreshTok envRefresh stored) resp).access_token = some a :=
      (carryForward_access_token _ resp).trans hacc
    simp [get_valid_token, hguard, hok, hca]
  · intro e herr
    simp [get_valid_token, hguard, herr]

/-- Witness for C9: with the environment token "rt", a successful refresh
returns the new access token and persists the merged record, while a
rejected refresh falls back to the interactive flow. -/
theorem refresh_first_and_fallback_witness :
    get_valid_token (some "rt") TokenRecord.empty refreshOmitting =
      ⟨some (save_tokens (carryForward (pickRefreshTok (some "rt") TokenRecord.empty)
          ⟨some "new-access", none, some 3600, none⟩)),
        TokenOutcome.returnedAccess "new-access"⟩
    ∧ get_valid_token (some "rt") TokenRecord.empty refreshRejecting =
      ⟨none, TokenOutcome.interactive⟩ :=
  ⟨(refresh_first_and_fallback (some "rt") TokenRecord.empty refreshOmitting
      (by decide)).1 ⟨some "new-access", none, some 3600, none⟩ "new-access" rfl rfl,
    (refresh_first_and_fallback (some "rt") TokenRecord.empty refreshRejecting
      (by decide)).2 "invalid_grant" rfl⟩

set_option maxRecDepth 4000 in
/-- C6: a fetch over the well-behaved 237-item provider issues exactly five
page requests — offsets 0, 50, 100, 150, 200, each later page sized
`min(50, 237 - offset)` so the last requests 37 items — and, for every
completion order of the four concurrent pages, returns a list of exactly
237 items. -/
theorem fetch_237_requests_and_length (tr : String) (order : List Nat)
    (hperm : order.Perm [50, 100, 150, 200]) :
    (get_all_top_items mkServer237 tr none true order).requested
        = [(50, 0), (50, 50), (50, 100), (50, 150), (37, 200)]
    ∧ (get_all_top_items mkServer237 tr none true order).outcome.returnedLength
        = some 237 := by
  rw [get_all_parallel mkServer237 tr order (List.replicate 50 0) 237 rfl
    (by decide) (by decide)]
  constructor
  · show (50, 0) :: (pyRange 50 237 50).map (fun o => (min 50 (237 - o), o)) = _
    decide
  · show (parCollect mkServer237 tr 237 order (List.replicate 50 0)).returnedLength
        = some 237
    rw [parCollect_mk]
    have hp : List.Perm (order.flatMap fun o => List.replicate (min 50 (237 - o)) o)
        ([50, 100, 150, 200].flatMap fun o => List.replicate (min 50 (237 - o)) o) :=
      hperm.flatMap_right _
    have hl : (order.flatMap fun o => List.replicate (min 50 (237 - o)) o).length = 187 := by
      rw [hp.length_eq]; decide
    simp [AllOutcome.returnedLength, List.length_take, hl]

/-- Witness for C6: a concrete out-of-offset-order completion order gives
the five requests and a 237-item result. -/
theorem fetch_237_requests_and_length_witness :
    (get_all_top_items mkServer237 "medium_term" none true [100, 50, 200, 150]).requested
        = [(50, 0), (50, 50), (50, 100), (50, 150), (37, 200)]
    ∧ (get_all_top_items mkServer237 "medium_term" none true
        [100, 50, 200, 150]).outcome.returnedLength = some 237 :=
  fetch_237_requests_and_length "medium_term" [100, 50, 200, 150] (by decide)

end SpotifyMock
